import Mathlib

/-!
Verification of the adaptive voting controller in `vote.py`
(CutlerWhitakerVotingTool).

Shallow embedding conventions:
* Python strings are modelled as `List Char`; `str.lower()` is
  `List.map Char.toLower`; the Python `in` substring test is
  `List.isInfixOf` (on ASCII names these agree with CPython).
* Poll percentages (Python floats carrying exact decimal values in every
  scenario the spec mentions) are modelled as `ℚ`.
* `None` arguments become `Option`; an absent results list is `[]` or
  `none` depending on whether the Python code tests `not results` or
  `results is None`.
* Machine integers are `ℕ`/`ℤ`; Python `int(x)` on a float is truncation
  toward zero, modelled by `ratTowardZero`.
-/

namespace CutlerVote

/-- `vote.py` line 57: the target entrant's display name. -/
def TARGET_ATHLETE : List Char := "Cutler Whitaker".toList

/-- `vote.py` line 109: maximum backoff delay in seconds. -/
def MAX_BACKOFF_DELAY : ℕ := 300

/-- Python `str.lower()` on an ASCII athlete name. -/
def lowerName (s : List Char) : List Char := s.map Char.toLower

/-- Does `hay` begin with `needle`? (auxiliary for the substring test). -/
def listStarts (needle hay : List Char) : Bool :=
  match needle, hay with
  | [], _ => true
  | _ :: _, [] => false
  | a :: as, b :: bs => a == b && listStarts as bs

/-- Python's `needle in hay` substring containment on strings. -/
def substringOf (needle hay : List Char) : Bool :=
  match hay with
  | [] => needle.isEmpty
  | _ :: rest => listStarts needle hay || substringOf needle rest

/-- Python `int(q)` for a rational: truncation toward zero. -/
def ratTowardZero (q : ℚ) : ℤ := if 0 ≤ q then ⌊q⌋ else ⌈q⌉

/-- `is_cutler_ahead` (`vote.py` 2470–2499): true iff the first entry's
lowercased name contains the lowercased target name, or contains both
tokens `cutler` and `whitaker`.  An empty list (Python `not results`,
which also covers `None`) gives `false`. -/
def is_cutler_ahead (results : List (List Char × ℚ)) : Bool :=
  match results with
  | [] => false
  | (name, _) :: _ =>
    let first_place_name := lowerName name
    let cutler_name := lowerName TARGET_ATHLETE
    substringOf cutler_name first_place_name ||
      (substringOf "cutler".toList first_place_name &&
       substringOf "whitaker".toList first_place_name)

/-- `get_cutler_lead_percentage` (`vote.py` 2501–2532): lead of the top
entry over the runner-up, provided at least two entries exist and the top
entry matches the target name. -/
def get_cutler_lead_percentage (results : List (List Char × ℚ))
    (lead_threshold : ℚ) : Option ℚ × Bool :=
  match results with
  | (first_name, first_pct) :: (_, second_pct) :: _ =>
    let first_place_name := lowerName first_name
    let cutler_name := lowerName TARGET_ATHLETE
    if substringOf cutler_name first_place_name ||
        (substringOf "cutler".toList first_place_name &&
         substringOf "whitaker".toList first_place_name) then
      let lead_percentage := first_pct - second_pct
      (some lead_percentage, decide (lead_threshold ≤ lead_percentage))
    else
      (none, false)
  | _ => (none, false)

/-! ## Shared counters and the success-path tier update -/

/-- The shared counters guarded by `_counter_lock` (`vote.py` 99–104),
without the attempt counter which is modelled separately where needed. -/
structure Counters where
  consecutive_behind_count : ℕ
  standard_vote_count : ℕ
  initial_accelerated_vote_count : ℕ
  accelerated_vote_count : ℕ
  super_accelerated_vote_count : ℕ
  deriving DecidableEq, Repr

/-- `perform_vote_iteration`, successful result-bearing branch
(`vote.py` 2625–2654): under the counters lock, reset-or-increment the
behind counter and bump exactly one tier counter, returning the new
counters and the `vote_type` string chosen. -/
def update_counters_on_result (cutler_ahead : Bool) (c : Counters) :
    Counters × String :=
  if cutler_ahead then
    ({ c with consecutive_behind_count := 0,
              standard_vote_count := c.standard_vote_count + 1 }, "standard")
  else
    let current_behind := c.consecutive_behind_count + 1
    if 10 ≤ current_behind then
      ({ c with consecutive_behind_count := current_behind,
                super_accelerated_vote_count :=
                  c.super_accelerated_vote_count + 1 }, "super_accelerated")
    else if 5 ≤ current_behind then
      ({ c with consecutive_behind_count := current_behind,
                accelerated_vote_count :=
                  c.accelerated_vote_count + 1 }, "accelerated")
    else
      ({ c with consecutive_behind_count := current_behind,
                initial_accelerated_vote_count :=
                  c.initial_accelerated_vote_count + 1 }, "initial_accelerated")

/-- `perform_vote_iteration`, failed-submission branch (`vote.py`
2688–2698): speculative tier classification from the current behind
count, without touching any counter. -/
def classify_vote_type_on_failure (current_behind : ℕ) : String :=
  if 10 ≤ current_behind then "super_accelerated"
  else if 5 ≤ current_behind then "accelerated"
  else if 1 ≤ current_behind then "initial_accelerated"
  else "standard"

/-! ## Audit journal (`log_vote_to_json`) -/

/-- The journal's `summary` block (`vote.py` 571–578).  Fields are `ℤ`
because an externally edited journal may hold arbitrary JSON integers. -/
structure Summary where
  total_votes_submitted : ℤ
  standard_votes : ℤ
  initial_accelerated_votes : ℤ
  accelerated_votes : ℤ
  super_accelerated_votes : ℤ
  exponential_backoff_votes : ℤ
  deriving DecidableEq, Repr

/-- The all-zero summary used both for a fresh journal and as the
starting point of the replay tally. -/
def zeroSummary : Summary := ⟨0, 0, 0, 0, 0, 0⟩

/-- One `votes[]` entry (`vote.py` 508–522); the session id, timestamp
and duration carry no logic and are kept as opaque strings/options. -/
structure VoteEntry where
  vote_number : ℕ
  thread_id : String
  timestamp : String
  success : Bool
  cutler_ahead : Bool
  cutler_position : Option ℕ
  cutler_percentage : Option ℚ
  consecutive_behind_count : ℕ
  vote_type : String
  lead_percentage : Option ℚ
  exponential_backoff : Bool
  deriving DecidableEq, Repr

/-- The per-record contribution used both in the replay loop
(`vote.py` 596–612) and in the single-record increment (619–643):
`success` feeds the total, the `vote_type` string selects one tier
bucket (unknown strings feed none), `exponential_backoff` feeds the
backoff bucket. -/
def tally_vote (s : Summary) (v : VoteEntry) : Summary :=
  let s :=
    if v.success then
      { s with total_votes_submitted := s.total_votes_submitted + 1 }
    else s
  let s :=
    if v.vote_type = "standard" then
      { s with standard_votes := s.standard_votes + 1 }
    else if v.vote_type = "initial_accelerated" then
      { s with initial_accelerated_votes := s.initial_accelerated_votes + 1 }
    else if v.vote_type = "accelerated" then
      { s with accelerated_votes := s.accelerated_votes + 1 }
    else if v.vote_type = "super_accelerated" then
      { s with super_accelerated_votes := s.super_accelerated_votes + 1 }
    else s
  if v.exponential_backoff then
    { s with exponential_backoff_votes := s.exponential_backoff_votes + 1 }
  else s

/-- `summary_before` (`vote.py` 585–612): tally replayed from the
records currently in the file, before the new record is appended. -/
def summary_before (votes : List VoteEntry) : Summary :=
  votes.foldl tally_vote zeroSummary

/-- `increment` (`vote.py` 617–643): the single new record's
contribution per field. -/
def vote_increment (v : VoteEntry) : Summary := tally_vote zeroSummary v

/-- `historical_offset` (`vote.py` 645–654). -/
def historical_offset (existing_summary before : Summary) : Summary :=
  ⟨max 0 (existing_summary.total_votes_submitted - before.total_votes_submitted),
   max 0 (existing_summary.standard_votes - before.standard_votes),
   max 0 (existing_summary.initial_accelerated_votes - before.initial_accelerated_votes),
   max 0 (existing_summary.accelerated_votes - before.accelerated_votes),
   max 0 (existing_summary.super_accelerated_votes - before.super_accelerated_votes),
   max 0 (existing_summary.exponential_backoff_votes - before.exponential_backoff_votes)⟩

/-- Per-field sum of summaries (`vote.py` 656–664 adds the three blocks
field by field). -/
def addSummary (a b : Summary) : Summary :=
  ⟨a.total_votes_submitted + b.total_votes_submitted,
   a.standard_votes + b.standard_votes,
   a.initial_accelerated_votes + b.initial_accelerated_votes,
   a.accelerated_votes + b.accelerated_votes,
   a.super_accelerated_votes + b.super_accelerated_votes,
   a.exponential_backoff_votes + b.exponential_backoff_votes⟩

/-- The journal as read and normalized (`vote.py` 536–580): a summary
block plus the ordered record list (session metadata carries no logic). -/
structure Journal where
  summary : Summary
  votes : List VoteEntry
  deriving DecidableEq, Repr

/-- `log_vote_to_json`, locked read-modify-write core (`vote.py`
582–671): replay the existing records, compute the historical offset
against the stored summary, append the new record, and write back
`offset + before + increment` as the new summary. -/
def log_vote_to_json (data : Journal) (vote_entry : VoteEntry) : Journal :=
  let existing_summary := data.summary
  let before := summary_before data.votes
  let increment := vote_increment vote_entry
  let offset := historical_offset existing_summary before
  let final_summary := addSummary (addSummary offset before) increment
  { summary := final_summary, votes := data.votes ++ [vote_entry] }

/-! ## Record construction and the failed-submission path -/

/-- Python `round(q, 2)`: round half to even at two decimal places. -/
def roundHalfEven (q : ℚ) : ℤ :=
  let f := ⌊q⌋
  let r := q - f
  if r < 1 / 2 then f
  else if 1 / 2 < r then f + 1
  else if f % 2 = 0 then f else f + 1

/-- Python `round(q, 2)` as a rational. -/
def round2 (q : ℚ) : ℚ := (roundHalfEven (q * 100) : ℚ) / 100

/-- The position scan shared by `log_vote_to_json` (`vote.py` 491–498),
`log_vote_verification` (732–738) and the sampler trigger (2759–2765):
first entry (1-based) whose lowercased name contains both `cutler` and
`whitaker`, with its percentage. -/
def cutler_scan : List (List Char × ℚ) → ℕ → Option (ℕ × ℚ)
  | [], _ => none
  | (name, percentage) :: rest, idx =>
    let name_lower := lowerName name
    if substringOf "cutler".toList name_lower &&
        substringOf "whitaker".toList name_lower then
      some (idx, percentage)
    else
      cutler_scan rest (idx + 1)

/-- `log_vote_to_json`, entry construction (`vote.py` 486–522): derive
the target's position and percentage from the results (absent results
give `none` for both) and assemble the record. -/
def build_vote_entry (vote_num : ℕ) (thread_id timestamp : String)
    (success : Bool) (results : Option (List (List Char × ℚ)))
    (cutler_ahead : Bool) (consecutive_behind_count : ℕ)
    (vote_type : String) (lead_percentage : Option ℚ)
    (is_backoff_vote : Bool) : VoteEntry :=
  let found := match results with
    | none => none
    | some rs => cutler_scan rs 1
  { vote_number := vote_num
    thread_id := thread_id
    timestamp := timestamp
    success := success
    cutler_ahead := cutler_ahead
    cutler_position := found.map Prod.fst
    cutler_percentage := (found.map Prod.snd).map round2
    consecutive_behind_count := consecutive_behind_count
    vote_type := vote_type
    lead_percentage := lead_percentage.map round2
    exponential_backoff := is_backoff_vote }

/-- `perform_vote_iteration`, failed-submission path (`vote.py` 2579–2581,
2684–2732): increment the attempt counter, classify the tier
speculatively from the current behind count, and emit the audit record.
Returns the new attempt count, the (unchanged) counters and the record
passed to `log_vote_to_json`. -/
def perform_vote_iteration_failure (thread_id timestamp : String)
    (vote_count : ℕ) (c : Counters) (lead_backoff_multiplier : ℚ) :
    ℕ × Counters × VoteEntry :=
  let current_vote_num := vote_count + 1
  let cutler_ahead := false
  let lead_percentage : Option ℚ := none
  let vote_type := classify_vote_type_on_failure c.consecutive_behind_count
  let is_backoff_active :=
    cutler_ahead && lead_percentage.isSome &&
      decide (1 < lead_backoff_multiplier)
  let entry := build_vote_entry current_vote_num thread_id timestamp false
    none (cutler_ahead) c.consecutive_behind_count vote_type
    lead_percentage is_backoff_active
  (current_vote_num, c, entry)

/-! ## Verification sampler file (`log_vote_verification`) -/

/-- One `verification_records[]` entry (`vote.py` 748–756, 788–811). -/
structure VerificationRecord where
  timestamp : String
  session_id : String
  our_vote_count : ℕ
  total_votes_on_server : ℕ
  cutler_percentage : ℚ
  cutler_vote_count_calculated : ℤ
  cutler_position : Option ℕ
  expected_vote_increase : ℤ
  actual_vote_increase : Option ℤ
  effectiveness_percentage : Option ℚ
  deriving DecidableEq, Repr

/-- `log_vote_verification` (`vote.py` 680–818): silently skip when the
server total, the target's percentage, or the results are missing;
otherwise estimate the target's vote count, locate the previous record
of the same session, derive the increase/effectiveness fields, and
append. Returns the new file contents and the record emitted, if any. -/
def log_vote_verification (vote_count : ℕ) (total_votes : Option ℕ)
    (cutler_percentage : Option ℚ)
    (results : Option (List (List Char × ℚ)))
    (timestamp session_id : String) (file : List VerificationRecord) :
    List VerificationRecord × Option VerificationRecord :=
  match total_votes, cutler_percentage, results with
  | some tv, some cp, some rs =>
    let cutler_vote_count := ratTowardZero ((tv : ℚ) * (cp / 100))
    let cutler_position := (cutler_scan rs 1).map Prod.fst
    let previous_record := file.reverse.find? (fun r => r.session_id == session_id)
    let extra : ℤ × Option ℤ × Option ℚ :=
      match previous_record with
      | some prev =>
        let expected_increase : ℤ := (vote_count : ℤ) - (prev.our_vote_count : ℤ)
        let actual_increase : ℤ :=
          cutler_vote_count - prev.cutler_vote_count_calculated
        let effectiveness : Option ℚ :=
          if 0 < expected_increase then
            some (round2 ((actual_increase : ℚ) / (expected_increase : ℚ) * 100))
          else none
        (expected_increase, some actual_increase, effectiveness)
      | none => ((vote_count : ℤ), none, none)
    let record : VerificationRecord :=
      { timestamp := timestamp
        session_id := session_id
        our_vote_count := vote_count
        total_votes_on_server := tv
        cutler_percentage := round2 cp
        cutler_vote_count_calculated := cutler_vote_count
        cutler_position := cutler_position
        expected_vote_increase := extra.1
        actual_vote_increase := extra.2.1
        effectiveness_percentage := extra.2.2 }
    (file ++ [record], some record)
  | _, _, _ => (file, none)

/-! ## Lead backoff multiplier and the Standard-tier wait -/

/-- `vote.py` line 107: the multiplier's initial value. -/
def lead_backoff_multiplier_init : ℚ := 1

/-- Backoff adjustment performed by the main loop after an iteration in
which the target is first with results (`vote.py` 3186–3199): multiply
by 1.5 and cap when the lead is high, otherwise reset to 1 if above 1. -/
def update_lead_backoff (lead_backoff_multiplier : ℚ) (is_lead_high : Bool) : ℚ :=
  if is_lead_high then
    min (lead_backoff_multiplier * (3 / 2)) ((MAX_BACKOFF_DELAY : ℚ) / 60)
  else if 1 < lead_backoff_multiplier then 1
  else lead_backoff_multiplier

/-- The multiplier after a sequence of lead-high/lead-low updates,
starting from the initial value. -/
def run_lead_backoff (flags : List Bool) : ℚ :=
  flags.foldl update_lead_backoff lead_backoff_multiplier_init

/-- Standard-tier wait computation (`vote.py` 3265–3277): when the lead
is high and the multiplier exceeds 1, `int(base * backoff)` capped at
`MAX_BACKOFF_DELAY`; otherwise the drawn base wait unchanged. -/
def compute_wait_time_standard (base_wait_time : ℕ) (is_lead_high : Bool)
    (current_backoff : ℚ) : ℤ :=
  if is_lead_high ∧ 1 < current_backoff then
    min (ratTowardZero ((base_wait_time : ℚ) * current_backoff))
      (MAX_BACKOFF_DELAY : ℤ)
  else (base_wait_time : ℤ)

/-- Modelled from the words of the specification sentence "Effective
wait in Standard tier = `min(round(drawnWait * backoffMultiplier),
maxBackoffSeconds)`", for comparison with the code's computation:
round-to-nearest (ties to even, as Python `round`) before the cap. -/
def spec_wait_standard (drawnWait : ℕ) (backoffMultiplier : ℚ) : ℤ :=
  min (roundHalfEven ((drawnWait : ℚ) * backoffMultiplier)) (300 : ℤ)

/-! ## Worker pool controller -/

/-- `initialize_parallel_threads` (`vote.py` 2861–2865): slot `i`'s
threshold is `20 + i * 10`. -/
def initialize_parallel_thresholds (max_threads : ℕ) : List ℕ :=
  (List.range max_threads).map (fun i => 20 + i * 10)

/-- The main loop's per-slot scan (`vote.py` 3205–3233): start an
inactive slot whose threshold is met; deactivate an active slot when the
target is first or the count dropped below the threshold, unless forced
mode is on.  Returns the slot's new `active` flag. -/
def scan_slot_active (current_behind_count : ℕ)
    (cutler_ahead force_parallel_mode : Bool) (threshold : ℕ)
    (active : Bool) : Bool :=
  if threshold ≤ current_behind_count ∧ active = false then true
  else if cutler_ahead = true ∧ active = true ∧ force_parallel_mode = false then
    false
  else if current_behind_count < threshold ∧ active = true ∧
      force_parallel_mode = false then
    false
  else active

/-! ## Verification-sampler trigger as a trace machine -/

/-- Events relevant to the sampler trigger: any worker's attempt-counter
increment (`vote.py` 2579–2581), and the primary worker reaching its
verification check (`vote.py` 2744–2772) with `ok` recording whether
that iteration had a successful submission with results and a server
total (line 2758). -/
inductive VEvent where
  | inc : VEvent
  | mainCheck : Bool → VEvent
  deriving DecidableEq, Repr

/-- The shared state read and written under `_counter_lock` by the
trigger logic, plus the list of counter values at which the sampler
actually ran (most recent first). -/
structure VState where
  vote_count : ℕ
  last_verification_vote_count : ℕ
  sampler_runs : List ℕ
  deriving DecidableEq, Repr

/-- One step of the trigger machine.  `mainCheck` mirrors `vote.py`
2747–2758: under the lock, when the global count is 1 or a multiple of
500 and differs from the marker, the marker is updated immediately; the
sampler itself runs only when the iteration also carried a successful
result (`ok`). -/
def vstep (s : VState) : VEvent → VState
  | VEvent.inc => { s with vote_count := s.vote_count + 1 }
  | VEvent.mainCheck ok =>
    if (s.vote_count = 1 ∨ s.vote_count % 500 = 0) ∧
        s.vote_count ≠ s.last_verification_vote_count then
      { s with
          last_verification_vote_count := s.vote_count,
          sampler_runs :=
            if ok then s.vote_count :: s.sampler_runs else s.sampler_runs }
    else s

/-- Initial shared state (`vote.py` 99, 121). -/
def vinit : VState := ⟨0, 0, []⟩

/-- Run a whole event trace from the initial state. -/
def vrun (events : List VEvent) : VState := events.foldl vstep vinit

/-- Invariant of the trigger machine: the sampler ran at most once per
counter value, only at due values, never above the current counter, and
a run at the current value is protected by the marker. -/
def VInv (s : VState) : Prop :=
  s.sampler_runs.Nodup ∧
  (∀ v ∈ s.sampler_runs, v ≤ s.vote_count) ∧
  (∀ v ∈ s.sampler_runs, v = s.vote_count →
    s.last_verification_vote_count = s.vote_count) ∧
  (∀ v ∈ s.sampler_runs, v = 1 ∨ v % 500 = 0)

end CutlerVote

namespace CutlerVote

/-! ## Theorems -/

lemma lowerName_target : lowerName TARGET_ATHLETE = "cutler whitaker".toList := by
  decide

/-- C7: `is_cutler_ahead` returns `false` on an empty (or `None`)
results list; otherwise it returns `true` iff the first entry's
lowercased name contains the full lowercased target name
`"cutler whitaker"` or contains both tokens `"cutler"` and
`"whitaker"`; entries other than the first (and all percentages) never
influence the result. -/
theorem C7_is_cutler_ahead_characterization :
    is_cutler_ahead [] = false ∧
    (∀ (name : List Char) (pct : ℚ) (rest : List (List Char × ℚ)),
      (is_cutler_ahead ((name, pct) :: rest) = true ↔
        (substringOf "cutler whitaker".toList (lowerName name) = true ∨
          (substringOf "cutler".toList (lowerName name) = true ∧
           substringOf "whitaker".toList (lowerName name) = true)))) ∧
    (∀ (name : List Char) (pct pct' : ℚ)
        (rest rest' : List (List Char × ℚ)),
      is_cutler_ahead ((name, pct) :: rest) =
        is_cutler_ahead ((name, pct') :: rest')) := by
  refine ⟨rfl, ?_, ?_⟩
  · intro name pct rest
    simp [is_cutler_ahead, lowerName_target]
  · intro name pct pct' rest rest'
    simp [is_cutler_ahead]

/-- C8: `get_cutler_lead_percentage` returns `(none, false)` for fewer
than two entries or when the top entry does not match the target (the
same name rule as `is_cutler_ahead`); otherwise it returns the lead of
the top entry over the runner-up together with the threshold test, and
on the spec's concrete snapshot it returns `(17.0, true)` at threshold
`15.0`. -/
theorem C8_get_cutler_lead_spec :
    (∀ t : ℚ, get_cutler_lead_percentage [] t = (none, false)) ∧
    (∀ (e : List Char × ℚ) (t : ℚ),
      get_cutler_lead_percentage [e] t = (none, false)) ∧
    (∀ (n1 : List Char) (p1 : ℚ) (n2 : List Char) (p2 : ℚ)
        (rest : List (List Char × ℚ)) (t : ℚ),
      (is_cutler_ahead ((n1, p1) :: (n2, p2) :: rest) = false →
        get_cutler_lead_percentage ((n1, p1) :: (n2, p2) :: rest) t =
          (none, false)) ∧
      (is_cutler_ahead ((n1, p1) :: (n2, p2) :: rest) = true →
        get_cutler_lead_percentage ((n1, p1) :: (n2, p2) :: rest) t =
          (some (p1 - p2), decide (t ≤ p1 - p2)))) ∧
    get_cutler_lead_percentage
      [("Cutler Whitaker".toList, 35), ("Dylan Papushak".toList, 18)] 15 =
      (some 17, true) := by
  have key : ∀ (n1 : List Char) (p1 : ℚ) (n2 : List Char) (p2 : ℚ)
      (rest : List (List Char × ℚ)) (t : ℚ),
      get_cutler_lead_percentage ((n1, p1) :: (n2, p2) :: rest) t =
        if is_cutler_ahead ((n1, p1) :: (n2, p2) :: rest) then
          (some (p1 - p2), decide (t ≤ p1 - p2))
        else (none, false) := by
    intro n1 p1 n2 p2 rest t
    simp only [get_cutler_lead_percentage, is_cutler_ahead]
  refine ⟨fun t => rfl, fun e t => ?_, ?_, ?_⟩
  · rcases e with ⟨n, p⟩; rfl
  · intro n1 p1 n2 p2 rest t
    constructor
    · intro h; rw [key, h]; rfl
    · intro h; rw [key, h]; rfl
  · rw [key]
    have hc : is_cutler_ahead
        [("Cutler Whitaker".toList, (35 : ℚ)), ("Dylan Papushak".toList, 18)] =
          true := by decide
    rw [hc]
    simp only [if_true, Prod.mk.injEq, Option.some.injEq,
      decide_eq_true_eq]
    constructor <;> norm_num

/-- Witness for C8: the hypotheses are discharged at concrete snapshots
where the target is, and is not, in first place. -/
theorem C8_witness :
    get_cutler_lead_percentage
      [("Dylan Papushak".toList, 35), ("Cutler Whitaker".toList, 18)] 10 =
      (none, false) ∧
    get_cutler_lead_percentage
      [("Cutler Whitaker".toList, 40), ("Dylan Papushak".toList, 30)] 5 =
      (some ((40 : ℚ) - 30), decide ((5 : ℚ) ≤ 40 - 30)) :=
  ⟨(C8_get_cutler_lead_spec.2.2.1 _ _ _ _ _ _).1 (by decide),
   (C8_get_cutler_lead_spec.2.2.1 _ _ _ _ _ _).2 (by decide)⟩

/-- C10: whenever the server total, the target's percentage, or the
results are missing, `log_vote_verification` returns without modifying
the verification file and without producing a record. -/
theorem C10_verification_silent_skip :
    ∀ (vc : ℕ) (tv : Option ℕ) (cp : Option ℚ)
      (rs : Option (List (List Char × ℚ))) (ts sid : String)
      (file : List VerificationRecord),
      tv = none ∨ cp = none ∨ rs = none →
      log_vote_verification vc tv cp rs ts sid file = (file, none) := by
  intro vc tv cp rs ts sid file h
  cases tv <;> cases cp <;> cases rs <;>
    simp_all [log_vote_verification]

/-- Witness for C10: a concrete skipped call. -/
theorem C10_witness :
    log_vote_verification 7 none (some 10)
      (some [("Cutler Whitaker".toList, 10)]) "t" "s" [] = ([], none) :=
  C10_verification_silent_skip 7 none (some 10)
    (some [("Cutler Whitaker".toList, 10)]) "t" "s" [] (Or.inl rfl)

/-- C1: on a successful, result-bearing iteration, when the target is
first the behind counter resets to 0 and the standard counter is
incremented; otherwise the behind counter is incremented and exactly one
behind-tier counter is bumped, chosen by the new count — initial
accelerated for 1–4, accelerated for 5–9, super accelerated for 10+ —
with the boundary values 4, 5, 9 and 10 landing as the spec demands. -/
theorem C1_success_path_tier_update :
    (∀ c : Counters,
      (update_counters_on_result true c).1.consecutive_behind_count = 0 ∧
      (update_counters_on_result true c).1.standard_vote_count =
        c.standard_vote_count + 1 ∧
      (update_counters_on_result true c).1.initial_accelerated_vote_count =
        c.initial_accelerated_vote_count ∧
      (update_counters_on_result true c).1.accelerated_vote_count =
        c.accelerated_vote_count ∧
      (update_counters_on_result true c).1.super_accelerated_vote_count =
        c.super_accelerated_vote_count ∧
      (update_counters_on_result true c).2 = "standard") ∧
    (∀ c : Counters,
      (update_counters_on_result false c).1.consecutive_behind_count =
        c.consecutive_behind_count + 1 ∧
      (update_counters_on_result false c).1.standard_vote_count =
        c.standard_vote_count ∧
      (1 ≤ c.consecutive_behind_count + 1 →
        c.consecutive_behind_count + 1 ≤ 4 →
        (update_counters_on_result false c).1.initial_accelerated_vote_count =
          c.initial_accelerated_vote_count + 1 ∧
        (update_counters_on_result false c).1.accelerated_vote_count =
          c.accelerated_vote_count ∧
        (update_counters_on_result false c).1.super_accelerated_vote_count =
          c.super_accelerated_vote_count ∧
        (update_counters_on_result false c).2 = "initial_accelerated") ∧
      (5 ≤ c.consecutive_behind_count + 1 →
        c.consecutive_behind_count + 1 ≤ 9 →
        (update_counters_on_result false c).1.accelerated_vote_count =
          c.accelerated_vote_count + 1 ∧
        (update_counters_on_result false c).1.initial_accelerated_vote_count =
          c.initial_accelerated_vote_count ∧
        (update_counters_on_result false c).1.super_accelerated_vote_count =
          c.super_accelerated_vote_count ∧
        (update_counters_on_result false c).2 = "accelerated") ∧
      (10 ≤ c.consecutive_behind_count + 1 →
        (update_counters_on_result false c).1.super_accelerated_vote_count =
          c.super_accelerated_vote_count + 1 ∧
        (update_counters_on_result false c).1.initial_accelerated_vote_count =
          c.initial_accelerated_vote_count ∧
        (update_counters_on_result false c).1.accelerated_vote_count =
          c.accelerated_vote_count ∧
        (update_counters_on_result false c).2 = "super_accelerated")) := by
  constructor
  · intro c
    simp [update_counters_on_result]
  · intro c
    by_cases h10 : 10 ≤ c.consecutive_behind_count + 1
    · simp only [update_counters_on_result, if_pos h10]
      refine ⟨rfl, rfl, ?_, ?_, ?_⟩ <;> intro h <;> first | omega | simp
    · by_cases h5 : 5 ≤ c.consecutive_behind_count + 1
      · simp only [update_counters_on_result, if_neg h10, if_pos h5]
        refine ⟨rfl, rfl, ?_, ?_, ?_⟩ <;> intro h <;> first | omega | simp
      · simp only [update_counters_on_result, if_neg h10, if_neg h5]
        refine ⟨rfl, rfl, ?_, ?_, ?_⟩ <;> intro h <;> first | omega | simp

/-- Witness for C1: the tier hypotheses are discharged at the boundary
counts 4, 5, 9 and 10 reached from behind counts 3, 4, 8 and 9. -/
theorem C1_witness :
    (update_counters_on_result false ⟨3, 0, 0, 0, 0⟩).2 =
      "initial_accelerated" ∧
    (update_counters_on_result false ⟨4, 0, 0, 0, 0⟩).2 = "accelerated" ∧
    (update_counters_on_result false ⟨8, 0, 0, 0, 0⟩).2 = "accelerated" ∧
    (update_counters_on_result false ⟨9, 0, 0, 0, 0⟩).2 =
      "super_accelerated" ∧
    (update_counters_on_result true ⟨7, 1, 2, 3, 4⟩).1.consecutive_behind_count
      = 0 :=
  ⟨((C1_success_path_tier_update.2 ⟨3, 0, 0, 0, 0⟩).2.2.1 (by decide)
      (by decide)).2.2.2,
   ((C1_success_path_tier_update.2 ⟨4, 0, 0, 0, 0⟩).2.2.2.1 (by decide)
      (by decide)).2.2.2,
   ((C1_success_path_tier_update.2 ⟨8, 0, 0, 0, 0⟩).2.2.2.1 (by decide)
      (by decide)).2.2.2,
   ((C1_success_path_tier_update.2 ⟨9, 0, 0, 0, 0⟩).2.2.2.2 (by decide)).2.2.2,
   (C1_success_path_tier_update.1 ⟨7, 1, 2, 3, 4⟩).1⟩

/-- C9: on a failed submission the counters are left unchanged, the
attempt counter was already incremented, the tier is classified
speculatively from the current behind count, and the audit record
carries `success = false`, `cutler_ahead = false` and null position,
percentage and lead. -/
theorem C9_failure_path :
    ∀ (tid ts : String) (vc : ℕ) (c : Counters) (m : ℚ),
      (perform_vote_iteration_failure tid ts vc c m).1 = vc + 1 ∧
      (perform_vote_iteration_failure tid ts vc c m).2.1 = c ∧
      ((perform_vote_iteration_failure tid ts vc c m).2.2.success = false) ∧
      ((perform_vote_iteration_failure tid ts vc c m).2.2.cutler_ahead =
        false) ∧
      ((perform_vote_iteration_failure tid ts vc c m).2.2.cutler_position =
        none) ∧
      ((perform_vote_iteration_failure tid ts vc c m).2.2.cutler_percentage =
        none) ∧
      ((perform_vote_iteration_failure tid ts vc c m).2.2.lead_percentage =
        none) ∧
      ((perform_vote_iteration_failure tid ts vc c m).2.2.exponential_backoff =
        false) ∧
      ((perform_vote_iteration_failure tid ts vc c m).2.2.consecutive_behind_count
        = c.consecutive_behind_count) ∧
      (c.consecutive_behind_count = 0 →
        (perform_vote_iteration_failure tid ts vc c m).2.2.vote_type =
          "standard") ∧
      (1 ≤ c.consecutive_behind_count → c.consecutive_behind_count ≤ 4 →
        (perform_vote_iteration_failure tid ts vc c m).2.2.vote_type =
          "initial_accelerated") ∧
      (5 ≤ c.consecutive_behind_count → c.consecutive_behind_count ≤ 9 →
        (perform_vote_iteration_failure tid ts vc c m).2.2.vote_type =
          "accelerated") ∧
      (10 ≤ c.consecutive_behind_count →
        (perform_vote_iteration_failure tid ts vc c m).2.2.vote_type =
          "super_accelerated") := by
  intro tid ts vc c m
  refine ⟨rfl, rfl, rfl, rfl, rfl, rfl, rfl, rfl, rfl, ?_, ?_, ?_, ?_⟩ <;>
    simp only [perform_vote_iteration_failure, build_vote_entry,
      classify_vote_type_on_failure]
  · intro h0
    simp [h0]
  · intro h1 h4
    rw [if_neg (by omega), if_neg (by omega), if_pos h1]
  · intro h5 h9
    rw [if_neg (by omega), if_pos h5]
  · intro h10
    rw [if_pos h10]

/-- Witness for C9: each speculative-tier hypothesis discharged at a
concrete behind count. -/
theorem C9_witness :
    (perform_vote_iteration_failure "Main" "t" 6 ⟨0, 0, 0, 0, 0⟩ 1).2.2.vote_type
      = "standard" ∧
    (perform_vote_iteration_failure "Main" "t" 6 ⟨3, 0, 0, 0, 0⟩ 1).2.2.vote_type
      = "initial_accelerated" ∧
    (perform_vote_iteration_failure "Main" "t" 6 ⟨7, 0, 0, 0, 0⟩ 1).2.2.vote_type
      = "accelerated" ∧
    (perform_vote_iteration_failure "Main" "t" 6 ⟨12, 0, 0, 0, 0⟩ 1).2.2.vote_type
      = "super_accelerated" :=
  ⟨(C9_failure_path "Main" "t" 6 ⟨0, 0, 0, 0, 0⟩ 1).2.2.2.2.2.2.2.2.2.1
      (by decide),
   (C9_failure_path "Main" "t" 6 ⟨3, 0, 0, 0, 0⟩ 1).2.2.2.2.2.2.2.2.2.2.1
      (by decide) (by decide),
   (C9_failure_path "Main" "t" 6 ⟨7, 0, 0, 0, 0⟩ 1).2.2.2.2.2.2.2.2.2.2.2.1
      (by decide) (by decide),
   (C9_failure_path "Main" "t" 6 ⟨12, 0, 0, 0, 0⟩ 1).2.2.2.2.2.2.2.2.2.2.2.2
      (by decide)⟩

/-- C2: `log_vote_to_json` appends the record and writes back, for every
field, `max 0 (existing − before) + before + increment`, where `before`
replays the pre-existing records and `increment` is the new record's
contribution; the spec's audit scenario (stored total 1000, one
replayable successful record, one new successful record) yields exactly
1001. -/
theorem C2_summary_reconciliation :
    (∀ (data : Journal) (v : VoteEntry),
      (log_vote_to_json data v).votes = data.votes ++ [v] ∧
      (log_vote_to_json data v).summary.total_votes_submitted =
        max 0 (data.summary.total_votes_submitted -
            (summary_before data.votes).total_votes_submitted) +
          (summary_before data.votes).total_votes_submitted +
          (vote_increment v).total_votes_submitted ∧
      (log_vote_to_json data v).summary.standard_votes =
        max 0 (data.summary.standard_votes -
            (summary_before data.votes).standard_votes) +
          (summary_before data.votes).standard_votes +
          (vote_increment v).standard_votes ∧
      (log_vote_to_json data v).summary.initial_accelerated_votes =
        max 0 (data.summary.initial_accelerated_votes -
            (summary_before data.votes).initial_accelerated_votes) +
          (summary_before data.votes).initial_accelerated_votes +
          (vote_increment v).initial_accelerated_votes ∧
      (log_vote_to_json data v).summary.accelerated_votes =
        max 0 (data.summary.accelerated_votes -
            (summary_before data.votes).accelerated_votes) +
          (summary_before data.votes).accelerated_votes +
          (vote_increment v).accelerated_votes ∧
      (log_vote_to_json data v).summary.super_accelerated_votes =
        max 0 (data.summary.super_accelerated_votes -
            (summary_before data.votes).super_accelerated_votes) +
          (summary_before data.votes).super_accelerated_votes +
          (vote_increment v).super_accelerated_votes ∧
      (log_vote_to_json data v).summary.exponential_backoff_votes =
        max 0 (data.summary.exponential_backoff_votes -
            (summary_before data.votes).exponential_backoff_votes) +
          (summary_before data.votes).exponential_backoff_votes +
          (vote_increment v).exponential_backoff_votes) ∧
    (log_vote_to_json
      { summary := ⟨1000, 0, 0, 0, 0, 0⟩,
        votes := [{ vote_number := 1, thread_id := "Main", timestamp := "t0",
                    success := true, cutler_ahead := true,
                    cutler_position := some 1, cutler_percentage := some 35,
                    consecutive_behind_count := 0, vote_type := "standard",
                    lead_percentage := none, exponential_backoff := false }] }
      { vote_number := 2, thread_id := "Main", timestamp := "t1",
        success := true, cutler_ahead := true, cutler_position := some 1,
        cutler_percentage := some 36, consecutive_behind_count := 0,
        vote_type := "standard", lead_percentage := none,
        exponential_backoff := false }).summary.total_votes_submitted =
      1001 := by
  constructor
  · intro data v
    refine ⟨rfl, rfl, rfl, rfl, rfl, rfl, rfl⟩
  · decide

lemma update_lead_backoff_bounds (m : ℚ) (b : Bool) (h1 : 1 ≤ m)
    (h5 : m ≤ 5) :
    1 ≤ update_lead_backoff m b ∧ update_lead_backoff m b ≤ 5 := by
  cases b with
  | true =>
    unfold update_lead_backoff MAX_BACKOFF_DELAY
    simp only [if_true]
    constructor
    · apply le_min
      · nlinarith
      · norm_num
    · calc min (m * (3 / 2)) ((300 : ℚ) / 60) ≤ (300 : ℚ) / 60 :=
          min_le_right _ _
        _ = 5 := by norm_num
  | false =>
    unfold update_lead_backoff
    simp only [Bool.false_eq_true, if_false]
    by_cases hm : 1 < m
    · rw [if_pos hm]; norm_num
    · rw [if_neg hm]; exact ⟨h1, h5⟩

lemma run_lead_backoff_fold_bounds (flags : List Bool) :
    ∀ m : ℚ, 1 ≤ m → m ≤ 5 →
      1 ≤ flags.foldl update_lead_backoff m ∧
        flags.foldl update_lead_backoff m ≤ 5 := by
  induction flags with
  | nil => intro m h1 h5; exact ⟨h1, h5⟩
  | cons b bs ih =>
    intro m h1 h5
    rw [List.foldl_cons]
    obtain ⟨g1, g5⟩ := update_lead_backoff_bounds m b h1 h5
    exact ih _ g1 g5

/-- C4: the backoff multiplier starts at 1.0; a lead-high iteration
multiplies it by 1.5 capped at `MAX_BACKOFF_DELAY / 60 = 5`; a
below-threshold iteration resets it to 1.0 when it exceeds 1.0 and
leaves it otherwise; from 1.0 the lead-high updates produce 1.5, 2.25,
3.375; and after any sequence of updates the multiplier lies in
`[1.0, 5.0]`. -/
theorem C4_backoff_multiplier_policy :
    lead_backoff_multiplier_init = 1 ∧
    (MAX_BACKOFF_DELAY : ℚ) / 60 = 5 ∧
    (∀ m : ℚ, update_lead_backoff m true = min (m * (3 / 2)) 5) ∧
    (∀ m : ℚ, 1 < m → update_lead_backoff m false = 1) ∧
    (∀ m : ℚ, ¬ 1 < m → update_lead_backoff m false = m) ∧
    run_lead_backoff [true] = 3 / 2 ∧
    run_lead_backoff [true, true] = 9 / 4 ∧
    run_lead_backoff [true, true, true] = 27 / 8 ∧
    (∀ flags : List Bool,
      1 ≤ run_lead_backoff flags ∧ run_lead_backoff flags ≤ 5) := by
  have hcap : (MAX_BACKOFF_DELAY : ℚ) / 60 = 5 := by
    unfold MAX_BACKOFF_DELAY; norm_num
  have hup : ∀ m : ℚ, update_lead_backoff m true = min (m * (3 / 2)) 5 := by
    intro m
    unfold update_lead_backoff
    rw [if_pos rfl, hcap]
  refine ⟨rfl, hcap, hup, ?_, ?_, ?_, ?_, ?_, ?_⟩
  · intro m hm
    unfold update_lead_backoff
    simp only [Bool.false_eq_true, if_false]
    rw [if_pos hm]
  · intro m hm
    unfold update_lead_backoff
    simp only [Bool.false_eq_true, if_false]
    rw [if_neg hm]
  · show List.foldl update_lead_backoff lead_backoff_multiplier_init [true] =
      3 / 2
    rw [List.foldl_cons, hup, List.foldl_nil]
    unfold lead_backoff_multiplier_init
    rw [min_eq_left (by norm_num)]
    norm_num
  · show List.foldl update_lead_backoff lead_backoff_multiplier_init
      [true, true] = 9 / 4
    rw [List.foldl_cons, hup, List.foldl_cons, hup, List.foldl_nil]
    unfold lead_backoff_multiplier_init
    rw [min_eq_left (by norm_num), min_eq_left (by norm_num)]
    norm_num
  · show List.foldl update_lead_backoff lead_backoff_multiplier_init
      [true, true, true] = 27 / 8
    rw [List.foldl_cons, hup, List.foldl_cons, hup, List.foldl_cons, hup,
      List.foldl_nil]
    unfold lead_backoff_multiplier_init
    rw [min_eq_left (by norm_num), min_eq_left (by norm_num),
      min_eq_left (by norm_num)]
    norm_num
  · intro flags
    exact run_lead_backoff_fold_bounds flags 1 le_rfl (by norm_num)

/-- Witness for C4: the reset and no-reset hypotheses discharged at
concrete multiplier values. -/
theorem C4_witness :
    update_lead_backoff 2 false = 1 ∧ update_lead_backoff 1 false = 1 :=
  ⟨C4_backoff_multiplier_policy.2.2.2.1 2 (by norm_num),
   C4_backoff_multiplier_policy.2.2.2.2.1 1 (by norm_num)⟩

/-- C3 counterexample: with base wait 53 and multiplier 1.5 the code's
Standard-tier wait is `int(79.5) = 79`, while the claimed
`min(round(53 * 1.5), 300)` is 80; moreover when the lead is not high
this iteration the multiplier is ignored entirely, so the claimed
formula does not describe the wait for every multiplier value. -/
theorem C3_counterexample :
    compute_wait_time_standard 53 true (3 / 2) = 79 ∧
    spec_wait_standard 53 (3 / 2) = 80 ∧
    compute_wait_time_standard 53 false (3 / 2) = 53 := by
  have h53 : ((53 : ℕ) : ℚ) * (3 / 2) = 159 / 2 := by norm_num
  have hf : ⌊(159 / 2 : ℚ)⌋ = 79 := by
    rw [Int.floor_eq_iff]; norm_num
  refine ⟨?_, ?_, ?_⟩
  · unfold compute_wait_time_standard ratTowardZero MAX_BACKOFF_DELAY
    rw [if_pos ⟨rfl, by norm_num⟩, if_pos (by rw [h53]; norm_num), h53, hf]
    norm_num
  · unfold spec_wait_standard roundHalfEven
    rw [h53, hf]
    norm_num
  · unfold compute_wait_time_standard
    rw [if_neg (by simp)]
    norm_num

/-- C3 amended: in the Standard tier the effective wait equals
`min(trunc(w·m), 300)` — Python `int` truncation, which on this
nonnegative product is the floor, not round-to-nearest — and only when
the lead was found high this iteration with multiplier above 1.0;
otherwise the drawn base wait is used unchanged. -/
theorem C3_amended_wait_is_truncated :
    (∀ (w : ℕ) (m : ℚ), 1 < m →
      compute_wait_time_standard w true m = min ⌊(w : ℚ) * m⌋ 300) ∧
    (∀ (w : ℕ) (m : ℚ), ¬ 1 < m →
      compute_wait_time_standard w true m = (w : ℤ)) ∧
    (∀ (w : ℕ) (m : ℚ), compute_wait_time_standard w false m = (w : ℤ)) ∧
    compute_wait_time_standard 67 true 5 = 300 := by
  refine ⟨?_, ?_, ?_, ?_⟩
  · intro w m hm
    unfold compute_wait_time_standard ratTowardZero MAX_BACKOFF_DELAY
    rw [if_pos ⟨rfl, hm⟩,
      if_pos (mul_nonneg (by positivity) (by linarith))]
    norm_num
  · intro w m hm
    unfold compute_wait_time_standard
    rw [if_neg (by simp [hm])]
  · intro w m
    unfold compute_wait_time_standard
    rw [if_neg (by simp)]
  · unfold compute_wait_time_standard ratTowardZero MAX_BACKOFF_DELAY
    have h67 : ((67 : ℕ) : ℚ) * 5 = 335 := by norm_num
    have hf335 : ⌊(335 : ℚ)⌋ = 335 := by
      rw [Int.floor_eq_iff]; norm_num
    rw [if_pos ⟨rfl, by norm_num⟩, if_pos (by rw [h67]; norm_num), h67, hf335]
    norm_num

/-- Witness for C3's amended theorem: the multiplier hypotheses
discharged at concrete values. -/
theorem C3_witness :
    compute_wait_time_standard 60 true 2 = min ⌊(60 : ℚ) * 2⌋ 300 ∧
    compute_wait_time_standard 60 true 1 = (60 : ℤ) :=
  ⟨C3_amended_wait_is_truncated.1 60 2 (by norm_num),
   C3_amended_wait_is_truncated.2.1 60 1 (by norm_num)⟩

/-- C5: auxiliary slot `i` has threshold `20 + 10·i`; the per-iteration
scan starts an inactive slot exactly when the behind count meets its
threshold, deactivates an active slot exactly when the target is first
or the count dropped below the threshold (never under forced mode), and
consequently a slot left active by the scan has its threshold met or
forced mode on. -/
theorem C5_worker_pool_slots :
    (∀ n i : ℕ, i < n →
      (initialize_parallel_thresholds n)[i]? = some (20 + 10 * i)) ∧
    (∀ (count : ℕ) (ca forced : Bool) (thr : ℕ),
      (scan_slot_active count ca forced thr false = true ↔ thr ≤ count)) ∧
    (∀ (count : ℕ) (ca : Bool) (thr : ℕ),
      (scan_slot_active count ca false thr true = false ↔
        (ca = true ∨ count < thr))) ∧
    (∀ (count : ℕ) (ca : Bool) (thr : ℕ),
      scan_slot_active count ca true thr true = true) ∧
    (∀ (count : ℕ) (ca forced : Bool) (thr : ℕ) (active : Bool),
      scan_slot_active count ca forced thr active = true →
        thr ≤ count ∨ forced = true) := by
  refine ⟨?_, ?_, ?_, ?_, ?_⟩
  · intro n i h
    simp [initialize_parallel_thresholds, List.getElem?_range, h]
    omega
  · intro count ca forced thr
    unfold scan_slot_active
    split_ifs with h1 h2 h3 <;> simp_all
  · intro count ca thr
    unfold scan_slot_active
    split_ifs with h1 h2 h3 <;> simp_all
  · intro count ca thr
    unfold scan_slot_active
    split_ifs with h1 h2 h3 <;> simp_all
  · intro count ca forced thr active
    unfold scan_slot_active
    split_ifs with h1 h2 h3 <;> intro h
    · exact Or.inl h1.1
    · exact absurd h (by simp)
    · exact absurd h (by simp)
    · cases forced with
      | true => exact Or.inr rfl
      | false =>
        subst h
        refine Or.inl ?_
        by_contra hlt
        exact h3 ⟨by omega, rfl, rfl⟩

/-- Witness for C5: hypotheses discharged at a concrete slot index and
a concrete scan outcome. -/
theorem C5_witness :
    (initialize_parallel_thresholds 4)[2]? = some (20 + 10 * 2) ∧
    ((25 : ℕ) ≤ 25 ∨ (false = true)) :=
  ⟨C5_worker_pool_slots.1 4 2 (by decide),
   C5_worker_pool_slots.2.2.2.2 25 false false 25 true (by decide)⟩

lemma foldl_vstep_replicate_inc (n : ℕ) (s : VState) :
    List.foldl vstep s (List.replicate n VEvent.inc) =
      { s with vote_count := s.vote_count + n } := by
  induction n generalizing s with
  | zero => simp
  | succ k ih =>
    rw [List.replicate_succ, List.foldl_cons, ih]
    simp [vstep]
    omega

/-- C6 counterexample: a threshold crossing can trigger the sampler zero
times, contradicting "never zero".  First trace: the primary worker's
very first iteration fails (`ok = false` at its verification check), so
the count-1 threshold is marked verified without the sampler ever
running.  Second trace: auxiliary increments carry the global counter to
501 before the primary worker checks, so the crossing of 500 is never
observed and triggers nothing. -/
theorem C6_counterexample :
    (vrun [VEvent.inc, VEvent.mainCheck false]).vote_count = 1 ∧
    (vrun [VEvent.inc, VEvent.mainCheck false]).sampler_runs = [] ∧
    (vrun (List.replicate 501 VEvent.inc ++
      [VEvent.mainCheck true])).vote_count = 501 ∧
    (vrun (List.replicate 501 VEvent.inc ++
      [VEvent.mainCheck true])).sampler_runs = [] := by
  refine ⟨by decide, by decide, ?_, ?_⟩ <;>
    (rw [vrun, List.foldl_append, foldl_vstep_replicate_inc]; decide)

lemma vstep_preserves_vinv (s : VState) (e : VEvent) (h : VInv s) :
    VInv (vstep s e) := by
  obtain ⟨h1, h2, h3, h4⟩ := h
  cases e with
  | inc =>
    refine ⟨h1, ?_, ?_, h4⟩
    · intro v hv
      exact Nat.le_succ_of_le (h2 v hv)
    · intro v hv hveq
      have := h2 v hv
      simp only [vstep] at hv hveq ⊢
      omega
  | mainCheck ok =>
    by_cases hdue : (s.vote_count = 1 ∨ s.vote_count % 500 = 0) ∧
        s.vote_count ≠ s.last_verification_vote_count
    · cases ok with
      | true =>
        have hs : vstep s (VEvent.mainCheck true) =
            { s with last_verification_vote_count := s.vote_count,
                     sampler_runs := s.vote_count :: s.sampler_runs } := by
          simp only [vstep]
          rw [if_pos hdue]
          simp
        rw [hs]
        refine ⟨?_, ?_, ?_, ?_⟩
        · exact List.nodup_cons.mpr
            ⟨fun hmem => hdue.2 (h3 s.vote_count hmem rfl).symm, h1⟩
        · intro v hv
          rcases List.mem_cons.mp hv with hveq | hvtail
          · exact le_of_eq hveq
          · exact h2 v hvtail
        · intro v _ _
          rfl
        · intro v hv
          rcases List.mem_cons.mp hv with hveq | hvtail
          · rw [hveq]; exact hdue.1
          · exact h4 v hvtail
      | false =>
        have hs : vstep s (VEvent.mainCheck false) =
            { s with last_verification_vote_count := s.vote_count } := by
          simp only [vstep]
          rw [if_pos hdue]
          simp
        rw [hs]
        refine ⟨h1, h2, ?_, h4⟩
        intro v _ _
        rfl
    · have hs : vstep s (VEvent.mainCheck ok) = s := by
        simp only [vstep]
        rw [if_neg hdue]
      rw [hs]
      exact ⟨h1, h2, h3, h4⟩

lemma foldl_vstep_preserves_vinv (events : List VEvent) :
    ∀ s : VState, VInv s → VInv (events.foldl vstep s) := by
  induction events with
  | nil => intro s h; exact h
  | cons e es ih =>
    intro s h
    rw [List.foldl_cons]
    exact ih _ (vstep_preserves_vinv s e h)

/-- C6 amended: the sampler runs only at counter value 1 or multiples of
500, and at most once per counter value (never twice), enforced by the
last-verified-count marker held under the counters lock; a crossing can
trigger zero samplings, because the primary worker must observe the
exact value during a successful, result-bearing iteration. -/
theorem C6_amended_sampler_at_most_once :
    ∀ events : List VEvent,
      (vrun events).sampler_runs.Nodup ∧
      (∀ v ∈ (vrun events).sampler_runs, v = 1 ∨ v % 500 = 0) := by
  intro events
  have h := foldl_vstep_preserves_vinv events vinit
    ⟨List.nodup_nil, by simp [vinit], by simp [vinit], by simp [vinit]⟩
  exact ⟨h.1, h.2.2.2⟩

/-- Witness for C6's amended theorem: one run of the sampler at count 1
in a concrete trace, with the membership hypothesis discharged there. -/
theorem C6_witness :
    (vrun [VEvent.inc, VEvent.mainCheck true]).sampler_runs.Nodup ∧
    ((1 : ℕ) = 1 ∨ 1 % 500 = 0) :=
  ⟨(C6_amended_sampler_at_most_once [VEvent.inc, VEvent.mainCheck true]).1,
   (C6_amended_sampler_at_most_once [VEvent.inc, VEvent.mainCheck true]).2 1
     (by decide)⟩

end CutlerVote
